/-
Verification of the request/response protocol engine of the http-server
repository (src/app/utils.py, src/app/files.py, src/app/handlers.py).

The Python code is shallowly embedded: Python `str` values are represented
as `List Char`, byte strings as `List Nat` (each entry a byte value), and
Python dicts as association lists built with an insert-with-overwrite
operation.  The gzip compression capability (`gzip.compress`) is an
external library whose output additionally depends on the current time
(the mtime field of the gzip header), so it is modelled as an explicit
function parameter `gz : List Nat → List Nat` threaded through the
definitions; no theorem below depends on the particular compressor.

Deviations of the embedding, all commented at their definition site:
`str.lower` / `str.isdigit` / `str.strip` are modelled on their ASCII
behaviour (the spec's header names and tokens are ASCII); the OS
filesystem is modelled as an association list from absolute path to byte
content, which represents regular files only, so the `FileNotFoundError`
/ `PermissionError` / `OSError` handlers of the Python code (pure I/O
failure paths) have no counterpart in the model.
-/
import Mathlib

set_option maxRecDepth 20000

namespace Srv

/-- Characters of a string literal (Python `str` is modelled as `List Char`). -/
def chars (s : String) : List Char := s.data

/-- Python whitespace for `str.strip` (ASCII subset: space, tab, LF, CR, VT, FF). -/
def pyIsSpace (c : Char) : Bool :=
  c == ' ' || c == '\t' || c == '\n' || c == '\r' || c == '\x0b' || c == '\x0c'

/-- Python `str.strip()` (ASCII whitespace). -/
def pyStrip (l : List Char) : List Char :=
  ((l.dropWhile pyIsSpace).reverse.dropWhile pyIsSpace).reverse

/-- Python `str.lower()` (ASCII case mapping). -/
def pyLower (l : List Char) : List Char := l.map Char.toLower

/-- Python `str.isdigit()` (ASCII digits): non-empty and all characters digits. -/
def pyIsDigit (l : List Char) : Bool := !l.isEmpty && l.all Char.isDigit

/-- Python `int(s)` on a digit string. -/
def pyParseNat (l : List Char) : Nat :=
  l.foldl (fun acc c => 10 * acc + (c.toNat - 48)) 0

/-- Decimal digit character, for rendering numbers (Python `str(n)`). -/
def digitChar (n : Nat) : Char := Char.ofNat (48 + n)

/-- Fuel-driven decimal rendering worker; the fuel in `natToChars` is always
sufficient, it only serves to make the recursion structural. -/
def natToCharsGo : Nat → Nat → List Char
  | 0, _ => []
  | f + 1, n =>
    if n < 10 then [digitChar n]
    else natToCharsGo f (n / 10) ++ [digitChar (n % 10)]

/-- Python `str(n)` for a non-negative integer: decimal rendering. -/
def natToChars (n : Nat) : List Char := natToCharsGo (n + 1) n

/-- Python `s.startswith(pre)`. -/
def pyStartsWith (s pre : List Char) : Bool := pre.isPrefixOf s

/-- One UTF-8 encoded character (Python `str.encode("utf-8")`, per character). -/
def utf8EncodeChar (c : Char) : List Nat :=
  let n := c.toNat
  if n < 128 then [n]
  else if n < 2048 then [192 + n / 64, 128 + n % 64]
  else if n < 65536 then [224 + n / 4096, 128 + (n / 64) % 64, 128 + n % 64]
  else [240 + n / 262144, 128 + (n / 4096) % 64, 128 + (n / 64) % 64, 128 + n % 64]

/-- Python `s.encode("utf-8")`: the byte sequence of a string. -/
def utf8Bytes : List Char → List Nat
  | [] => []
  | c :: cs => utf8EncodeChar c ++ utf8Bytes cs

/-- Python `s.split("\r\n")`: split on every (leftmost, non-overlapping)
occurrence of the CRLF separator, keeping empty pieces. -/
def splitCrlf : List Char → List (List Char)
  | [] => [[]]
  | '\r' :: '\n' :: rest => [] :: splitCrlf rest
  | c :: rest =>
    match splitCrlf rest with
    | [] => [[c]]
    | y :: ys => (c :: y) :: ys

/-- Python `s.split(t)` for a single-character separator `t`. -/
def splitChar (t : Char) : List Char → List (List Char)
  | [] => [[]]
  | c :: rest =>
    if c = t then [] :: splitChar t rest
    else
      match splitChar t rest with
      | [] => [[c]]
      | y :: ys => (c :: y) :: ys

/-- Python `s.split(t, 1)` for a single-character separator: split at the
first occurrence, `none` when the separator does not occur. -/
def splitOnceChar (t : Char) : List Char → Option (List Char × List Char)
  | [] => none
  | c :: rest =>
    if c = t then some ([], rest)
    else (splitOnceChar t rest).map (fun p => (c :: p.1, p.2))

/-- Python `s.split("\r\n\r\n", 1)`: split at the first occurrence of the
blank-line separator, `none` when it does not occur (`len(parts) < 2`). -/
def splitOnceCrlf2 : List Char → Option (List Char × List Char)
  | [] => none
  | '\r' :: '\n' :: '\r' :: '\n' :: rest => some ([], rest)
  | c :: rest => (splitOnceCrlf2 rest).map (fun p => (c :: p.1, p.2))

/-- Python dict (string keys): association list with unique keys, maintained
by insert-with-overwrite.  Values of type `β`. -/
def pyDictInsert {β : Type} : List (List Char × β) → List Char → β → List (List Char × β)
  | [], k, v => [(k, v)]
  | (k', v') :: rest, k, v =>
    if k' = k then (k', v) :: rest else (k', v') :: pyDictInsert rest k v

/-- Python `d.get(k)`: lookup in an association list. -/
def pyDictGet {β : Type} : List (List Char × β) → List Char → Option β
  | [], _ => none
  | (k', v) :: rest, k => if k' = k then some v else pyDictGet rest k

/-- Header map of a parsed request: lower-cased name to trimmed value. -/
abbrev Dict := List (List Char × List Char)

/-- The filesystem, as seen by the file handlers: a map from absolute path to
the byte content of the regular file stored there.  (`os.path.isfile` is
membership, reading returns the content, writing overwrites the entry.) -/
abbrev Fs := List (List Char × List Nat)

/-- Does the line contain the substring `": "`? (the header-line test of
`parse_request`). -/
def hasColonSpace : List Char → Bool
  | [] => false
  | ':' :: ' ' :: _ => true
  | _ :: rest => hasColonSpace rest

/-- One line of the header comprehension of `parse_request`:
`key.strip().lower(): value.strip() for line ... if ": " in line
for key, value in [line.split(":", 1)]`. -/
def headerOfLine (line : List Char) : Option (List Char × List Char) :=
  if hasColonSpace line then
    match splitOnceChar ':' line with
    | some (k, v) => some (pyLower (pyStrip k), pyStrip v)
    | none => none
  else none

/-- The dict comprehension of `parse_request` over `lines[1:]`: a Python dict
built by inserting each header pair in order (later occurrences overwrite). -/
def headersOf (ls : List (List Char)) : Dict :=
  ls.foldl
    (fun d line =>
      match headerOfLine line with
      | some kv => pyDictInsert d kv.1 kv.2
      | none => d)
    []

/-- `app/utils.py`, `parse_request(request_data)`.

Splits on CRLF; if the first line has fewer than three space-separated
tokens it returns `(None, None, {})`; with exactly three it unpacks them
and builds the header dict from all remaining lines; with more than three
tokens the unpacking `method, path, _ = lines[0].split(" ")` raises
`ValueError`, modelled as `Except.error ()`. -/
def parse_request (request_data : List Char) :
    Except Unit (Option (List Char) × Option (List Char) × Dict) :=
  let lines := splitCrlf request_data
  match lines with
  | [] => .ok (none, none, [])          -- `if not lines` (split never returns [])
  | l0 :: rest =>
    let toks := splitChar ' ' l0
    if toks.length < 3 then .ok (none, none, [])   -- malformed request
    else
      match toks with
      | [m, p, _] => .ok (some m, some p, headersOf rest)
      | _ => .error ()                   -- ValueError: too many values to unpack

/-- Python `str | bytes` body argument of `format_response`. -/
inductive PyBody where
  | str (s : List Char)
  | bytes (b : List Nat)
deriving DecidableEq

/-- The byte sequence of a `format_response` body argument (`body.encode("utf-8")`
for text, the bytes themselves otherwise). -/
def bodyBytes : PyBody → List Nat
  | .str s => utf8Bytes s
  | .bytes b => b

/-- `app/utils.py`, `format_response(status_code, body, content_type,
supported_encodings)`.

`gz` is the `gzip.compress` capability.  `supported_encodings = none`
models the Python default `None`; `(supported_encodings or set())`
collapses `None` (and only changes falsy values, which denote the same
empty set) to the empty set, modelled by `Option.getD []`. -/
def format_response (gz : List Nat → List Nat) (status_code : List Char)
    (body : PyBody) (content_type : List Char)
    (supported_encodings : Option (List (List Char))) : List Nat :=
  let response_body := bodyBytes body
  let gzipped := (supported_encodings.getD []).contains (chars "gzip")
  let response_body := if gzipped then gz response_body else response_body
  let headers :=
    [chars "HTTP/1.1 " ++ status_code, chars "Content-Type: " ++ content_type]
    ++ (if gzipped then [chars "Content-Encoding: gzip"] else [])
    ++ [chars "Content-Length: " ++ natToChars response_body.length, chars "\r\n"]
  utf8Bytes (List.intercalate (chars "\r\n") headers) ++ response_body

/-- POSIX `os.path.join(a, b)` for two components. -/
def pyJoin (a b : List Char) : List Char :=
  if pyStartsWith b (chars "/") then b
  else if a = [] ∨ a.getLast? = some '/' then a ++ b
  else a ++ chars "/" ++ b

/-- POSIX `os.path.normpath(p)`: collapse slashes and `.`, resolve `..`
lexically (never above the root), preserving the special two-slash root. -/
def pyNormpath (p : List Char) : List Char :=
  if p = [] then chars "." else
  let initialSlashes : Nat :=
    if pyStartsWith p (chars "/") then
      if pyStartsWith p (chars "//") ∧ ¬ pyStartsWith p (chars "///") then 2 else 1
    else 0
  let comps := splitChar '/' p
  let newComps := comps.foldl
    (fun acc comp =>
      if comp = [] ∨ comp = chars "." then acc
      else if comp ≠ chars ".." ∨ (initialSlashes = 0 ∧ acc = [])
              ∨ acc.getLast? = some (chars "..") then acc ++ [comp]
      else if acc ≠ [] then acc.dropLast
      else acc)
    []
  let joined := List.replicate initialSlashes '/' ++ List.intercalate (chars "/") newComps
  if joined = [] then chars "." else joined

/-- POSIX `os.path.abspath(p)` relative to the working directory `cwd`:
`normpath(join(cwd, p))` (`join` discards `cwd` when `p` is absolute). -/
def pyAbspath (cwd p : List Char) : List Char := pyNormpath (pyJoin cwd p)

/-- `re.match(r"^/files/([^/]+)$", path)`: the captured single path segment.
`[^/]+` admits every character but `/` (newlines included), and — `[^/]+`
being greedy — `$` can only close the match at the very end, so the match
succeeds exactly when something non-empty and slash-free follows
`/files/`, and captures all of it. -/
def fileMatch : List Char → Option (List Char)
  | '/' :: 'f' :: 'i' :: 'l' :: 'e' :: 's' :: '/' :: rest =>
    if rest.isEmpty || rest.contains '/' then none else some rest
  | _ => none

/-- `re.match(r"^/echo/(.+)$", path)`: the captured echo text.  `.` does not
match a newline and `$` also matches just before a trailing newline, so the
match succeeds exactly when, after stripping at most one trailing newline,
a non-empty newline-free remainder follows `/echo/`; the capture is that
remainder. -/
def echoMatch : List Char → Option (List Char)
  | '/' :: 'e' :: 'c' :: 'h' :: 'o' :: '/' :: rest =>
    let core := if rest.getLast? = some '\n' then rest.dropLast else rest
    if core.isEmpty || core.contains '\n' then none else some core
  | _ => none

/-- `app/files.py`, `handle_file_upload(request_data, path, base_directory,
headers)`.

Returns the response bytes together with the filesystem after the handler
ran (the Python function mutates the filesystem through `open(..., "w")`).
The file is written in text mode with UTF-8 encoding, so the stored bytes
are the UTF-8 encoding of the truncated body text (POSIX `os.linesep`
is `"\n"`, so text mode rewrites nothing).  The `except OSError` branch
(500 "File write error") is a pure I/O failure path with no counterpart in
the filesystem model, where writes always succeed. -/
def handle_file_upload (gz : List Nat → List Nat) (cwd : List Char)
    (request_data path base_directory : List Char) (headers : Dict)
    (fs : Fs) : List Nat × Fs :=
  match fileMatch path with
  | none =>
    (format_response gz (chars "400 Bad Request") (.str (chars "Invalid file request"))
      (chars "text/plain") none, fs)
  | some filename =>
    let file_path := pyAbspath cwd (pyJoin base_directory filename)
    -- Prevent directory traversal attacks
    if !pyStartsWith file_path (pyAbspath cwd base_directory) then
      (format_response gz (chars "403 Forbidden") (.str (chars "Access Denied"))
        (chars "text/plain") none, fs)
    else
      -- Validate Content-Length header
      match pyDictGet headers (chars "content-length") with
      | none =>
        (format_response gz (chars "411 Length Required")
          (.str (chars "Content-Length header missing or invalid"))
          (chars "text/plain") none, fs)
      | some cl =>
        if !pyIsDigit cl then
          (format_response gz (chars "411 Length Required")
            (.str (chars "Content-Length header missing or invalid"))
            (chars "text/plain") none, fs)
        else
          let content_length := pyParseNat cl
          -- Extract request body (POST data)
          match splitOnceCrlf2 request_data with
          | none =>
            (format_response gz (chars "400 Bad Request") (.str (chars "Missing request body"))
              (chars "text/plain") none, fs)
          | some (_, after) =>
            let request_body := after.take content_length  -- only the expected length
            (format_response gz (chars "201 Created") (.str []) (chars "text/plain") none,
             pyDictInsert fs file_path (utf8Bytes request_body))

/-- `app/files.py`, `handle_file_request(path, base_directory,
supported_encodings)`.

`os.path.isfile` and the binary read are the filesystem-map lookup; the
`except FileNotFoundError / PermissionError / OSError / Exception`
branches (404/403/500 responses) are pure I/O failure paths with no
counterpart in the filesystem model, where a present file is always
readable. -/
def handle_file_request (gz : List Nat → List Nat) (cwd : List Char)
    (path base_directory : List Char) (supported_encodings : List (List Char))
    (fs : Fs) : List Nat :=
  match fileMatch path with
  | none =>
    format_response gz (chars "400 Bad Request") (.str (chars "Invalid file request"))
      (chars "text/plain") (some supported_encodings)
  | some filename =>
    let file_path := pyAbspath cwd (pyJoin base_directory filename)
    if !pyStartsWith file_path (pyAbspath cwd base_directory) then
      format_response gz (chars "403 Forbidden") (.str (chars "Access Denied"))
        (chars "text/plain") (some supported_encodings)
    else
      match pyDictGet fs file_path with
      | none =>
        format_response gz (chars "404 Not Found") (.str (chars "File Not Found"))
          (chars "text/plain") (some supported_encodings)
      | some file_content =>
        format_response gz (chars "200 OK") (.bytes file_content)
          (chars "application/octet-stream") (some supported_encodings)

/-- `app/handlers.py`, lines 18–19: the encoding candidates handed to
dispatch and formatting, derived from the `accept-encoding` header:
`set(headers.get("accept-encoding", "").lower().replace(" ", "").split(","))`.
The Python `set` is modelled by the token list produced by the split;
only membership of `"gzip"` in it is ever consulted. -/
def derivedEncodings (headers : Dict) : List (List Char) :=
  let accept_encoding := pyLower ((pyDictGet headers (chars "accept-encoding")).getD [])
  splitChar ',' (accept_encoding.filter (fun c => !(c == ' ')))

/-- Python truthiness test `path and path.startswith("/files/")` on the
optional path (`None` and the empty string are falsy; `startswith` of a
non-empty prefix is false on the empty string anyway). -/
def pathFiles (path : Option (List Char)) : Bool :=
  match path with
  | some p => pyStartsWith p (chars "/files/")
  | none => false

/-- The route-dispatch `if`/`elif` chain of `app/handlers.py`,
`handle_request`, lines 21–53: from the parse outcome to the response
bytes and the filesystem after dispatch.  (`headers = headers or {}` is
the identity here: the parser always returns a dict.) -/
def dispatch (gz : List Nat → List Nat) (cwd base_directory : List Char)
    (method path : Option (List Char)) (headers : Dict)
    (request_data : List Char) (fs : Fs) : List Nat × Fs :=
  let supported_encodings := derivedEncodings headers
  -- Handle GET requests
  if method = some (chars "GET") then
    if path = some (chars "/") then
      (format_response gz (chars "200 OK") (.str []) (chars "text/plain")
        (some supported_encodings), fs)
    else
      match echoMatch (path.getD []) with   -- `re.match(r"^/echo/(.+)$", path or "")`
      | some captured =>
        (format_response gz (chars "200 OK") (.str captured) (chars "text/plain")
          (some supported_encodings), fs)
      | none =>
        if path = some (chars "/user-agent") then
          (format_response gz (chars "200 OK")
            (.str ((pyDictGet headers (chars "user-agent")).getD (chars "Unknown")))
            (chars "text/plain") (some supported_encodings), fs)
        else if pathFiles path then
          (handle_file_request gz cwd (path.getD []) base_directory supported_encodings fs, fs)
        else
          (format_response gz (chars "404 Not Found") (.str (chars "Not Found"))
            (chars "text/plain") (some supported_encodings), fs)
  -- Handle POST requests
  else if method = some (chars "POST") ∧ pathFiles path = true then
    handle_file_upload gz cwd request_data (path.getD []) base_directory headers fs
  else
    (format_response gz (chars "405 Method Not Allowed")
      (.str (chars "Only GET and POST supported")) (chars "text/plain") none, fs)

/-- Observable outcome of one connection in `handle_request`: the byte
chunks successfully written to the socket, whether the socket was closed,
and whether an exception propagated out of the function (after the
`finally` block ran). -/
structure HandleResult where
  sent : List (List Nat)
  closed : Bool
  raised : Bool
deriving DecidableEq

/-- `app/handlers.py`, `handle_request(client_socket, base_directory)`.

The socket is modelled by its observable effects: `request_data` is the
decoded result of the initial `recv` (an empty read is the empty string),
and `sendFail n` injects an exception into the `n`-th `sendall` call
(`sendFail 0` the send inside the `try` body, `sendFail 1` the send of
the fallback 500 response inside the `except` block).  Every branch of
the Python function reaches the `finally: client_socket.close()`, which
is why `closed := true` in every outcome; an exception raised by the
second `sendall` propagates after the close (`raised := true`).
Failures of `recv`/`decode` are further members of the same catch-all
`except` branch, not represented in this pure model where the decoded
request text is the input. -/
def handle_request (gz : List Nat → List Nat) (cwd base_directory : List Char)
    (fs : Fs) (request_data : List Char) (sendFail : Nat → Bool) :
    HandleResult × Fs :=
  if request_data = [] then
    ({ sent := [], closed := true, raised := false }, fs)   -- empty read: no response
  else
    match parse_request request_data with
    | .error _ =>
      -- the `except Exception` branch: log, then send a fixed 500 response
      let response := format_response gz (chars "500 Internal Server Error")
        (.str (chars "Server Error")) (chars "text/plain") none
      if sendFail 1 then ({ sent := [], closed := true, raised := true }, fs)
      else ({ sent := [response], closed := true, raised := false }, fs)
    | .ok (method, path, headers) =>
      let rf := dispatch gz cwd base_directory method path headers request_data fs
      if sendFail 0 then
        -- `sendall` raised: caught by the same `except` branch
        let response := format_response gz (chars "500 Internal Server Error")
          (.str (chars "Server Error")) (chars "text/plain") none
        if sendFail 1 then ({ sent := [], closed := true, raised := true }, rf.2)
        else ({ sent := [response], closed := true, raised := false }, rf.2)
      else ({ sent := [rf.1], closed := true, raised := false }, rf.2)

/-! ### Helper lemmas -/

theorem utf8Bytes_append (a b : List Char) :
    utf8Bytes (a ++ b) = utf8Bytes a ++ utf8Bytes b := by
  induction a with
  | nil => simp [utf8Bytes]
  | cons c cs ih => simp [utf8Bytes, ih]

theorem utf8EncodeChar_length_pos (c : Char) : 0 < (utf8EncodeChar c).length := by
  simp only [utf8EncodeChar]
  split_ifs <;> simp

theorem length_le_utf8Bytes (l : List Char) : l.length ≤ (utf8Bytes l).length := by
  induction l with
  | nil => simp [utf8Bytes]
  | cons c cs ih =>
    have := utf8EncodeChar_length_pos c
    simp only [utf8Bytes, List.length_append, List.length_cons]
    omega

theorem isPrefixOf_append_self (a b : List Char) : a.isPrefixOf (a ++ b) = true := by
  simp [List.isPrefixOf_iff_prefix]

theorem pyParseNat_append_digit (l : List Char) (c : Char) :
    pyParseNat (l ++ [c]) = 10 * pyParseNat l + (c.toNat - 48) := by
  simp [pyParseNat, List.foldl_append]

theorem pyParseNat_natToCharsGo (f : Nat) :
    ∀ n : Nat, n < f → pyParseNat (natToCharsGo f n) = n := by
  induction f with
  | zero => intro n h; omega
  | succ f ih =>
    intro n h
    by_cases h10 : n < 10
    · have : pyParseNat [digitChar n] = n := by
        interval_cases n <;> decide
      simpa [natToCharsGo, h10] using this
    · have hdiv : n / 10 < f := by
        have h1 : n / 10 < n := Nat.div_lt_self (by omega) (by omega)
        omega
      have hmod : (digitChar (n % 10)).toNat - 48 = n % 10 := by
        have hm : n % 10 < 10 := Nat.mod_lt _ (by omega)
        generalize n % 10 = m at hm ⊢
        interval_cases m <;> decide
      rw [natToCharsGo]
      simp only [h10, if_false]
      rw [pyParseNat_append_digit, ih _ hdiv, hmod]
      omega

theorem pyParseNat_natToChars (n : Nat) : pyParseNat (natToChars n) = n :=
  pyParseNat_natToCharsGo (n + 1) n (Nat.lt_succ_self n)

theorem natToChars_ne_zero {n : Nat} (h : n ≠ 0) : natToChars n ≠ chars "0" := by
  intro heq
  have h1 := pyParseNat_natToChars n
  rw [heq] at h1
  have : pyParseNat (chars "0") = 0 := by decide
  omega

theorem pyDictGet_insert {β : Type} (d : List (List Char × β)) (a k : List Char) (v : β) :
    pyDictGet (pyDictInsert d a v) k = if a = k then some v else pyDictGet d k := by
  induction d with
  | nil =>
    by_cases hak : a = k <;> simp [pyDictInsert, pyDictGet, hak]
  | cons q rest ih =>
    obtain ⟨k', v'⟩ := q
    by_cases hk'a : k' = a
    · subst hk'a
      by_cases hak : k' = k <;> simp [pyDictInsert, pyDictGet, hak]
    · by_cases hk'k : k' = k
      · subst hk'k
        have hak : ¬ a = k' := fun hh => hk'a hh.symm
        simp [pyDictInsert, pyDictGet, hk'a, hak]
      · simp [pyDictInsert, pyDictGet, hk'a, hk'k, ih]

/-- The regex `^/files/([^/]+)$` accepts `/files/` followed by any chosen
non-empty slash-free segment, capturing the segment. -/
theorem fileMatch_append (name : List Char) (h1 : name.isEmpty = false)
    (h2 : name.contains '/' = false) :
    fileMatch (chars "/files/" ++ name) = some name := by
  show fileMatch ('/' :: 'f' :: 'i' :: 'l' :: 'e' :: 's' :: '/' :: name) = some name
  have h2' : '/' ∉ name := by simpa using h2
  simp [fileMatch, h1, h2']

/-- Structure of every `format_response` output with an explicit encoding
set: status line, `Content-Type`, `Content-Encoding: gzip` exactly when
`"gzip"` is among the candidates, `Content-Length` of the final body, a
blank line, then the final body. -/
theorem format_response_eq (gz : List Nat → List Nat) (status : List Char)
    (body : PyBody) (ct : List Char) (encs : List (List Char)) :
    format_response gz status body ct (some encs) =
      (if encs.contains (chars "gzip") then
        utf8Bytes (chars "HTTP/1.1 " ++ status ++ chars "\r\n"
            ++ chars "Content-Type: " ++ ct ++ chars "\r\n"
            ++ chars "Content-Encoding: gzip" ++ chars "\r\n"
            ++ chars "Content-Length: " ++ natToChars (gz (bodyBytes body)).length
            ++ chars "\r\n" ++ chars "\r\n")
          ++ gz (bodyBytes body)
      else
        utf8Bytes (chars "HTTP/1.1 " ++ status ++ chars "\r\n"
            ++ chars "Content-Type: " ++ ct ++ chars "\r\n"
            ++ chars "Content-Length: " ++ natToChars (bodyBytes body).length
            ++ chars "\r\n" ++ chars "\r\n")
          ++ bodyBytes body) := by
  by_cases h : chars "gzip" ∈ encs <;>
    simp [format_response, h, List.intercalate, List.intersperse, List.append_assoc]

/-- Same, for the default `None` encoding argument (the plain formatting
path of the error responses): never compressed. -/
theorem format_response_none_eq (gz : List Nat → List Nat) (status : List Char)
    (body : PyBody) (ct : List Char) :
    format_response gz status body ct none =
      utf8Bytes (chars "HTTP/1.1 " ++ status ++ chars "\r\n"
          ++ chars "Content-Type: " ++ ct ++ chars "\r\n"
          ++ chars "Content-Length: " ++ natToChars (bodyBytes body).length
          ++ chars "\r\n" ++ chars "\r\n")
        ++ bodyBytes body := by
  simp [format_response, List.intercalate, List.intersperse, List.append_assoc,
    Option.getD, chars]

/-- Folding dict insertion over a pair list (the dict-comprehension engine). -/
def dictIns (d : Dict) (kv : List Char × List Char) : Dict :=
  pyDictInsert d kv.1 kv.2

theorem headersOf_foldl (ls : List (List Char)) :
    ∀ d : Dict,
      ls.foldl
        (fun d line =>
          match headerOfLine line with
          | some kv => pyDictInsert d kv.1 kv.2
          | none => d)
        d
      = (ls.filterMap headerOfLine).foldl dictIns d := by
  induction ls with
  | nil => intro d; simp
  | cons line rest ih =>
    intro d
    cases h : headerOfLine line <;> simp [List.filterMap_cons, h, ih, dictIns]

theorem headersOf_eq (ls : List (List Char)) :
    headersOf ls = (ls.filterMap headerOfLine).foldl dictIns [] := by
  simpa [headersOf] using headersOf_foldl ls []

theorem pyDictGet_foldl_ins (pairs : List (List Char × List Char)) :
    ∀ (d : Dict) (k : List Char),
      pyDictGet (pairs.foldl dictIns d) k
        = ((pairs.reverse.find? (fun q => q.1 == k)).map Prod.snd).or (pyDictGet d k) := by
  induction pairs with
  | nil => intro d k; simp
  | cons q rest ih =>
    intro d k
    rw [List.foldl_cons, ih]
    rw [List.reverse_cons, List.find?_append]
    cases hf : rest.reverse.find? (fun q => q.1 == k) with
    | some val => simp [Option.or]
    | none =>
      simp only [Option.map_none, Option.none_or, dictIns, pyDictGet_insert]
      by_cases hqk : q.1 = k
      · simp [List.find?, hqk, Option.or]
      · have : (q.1 == k) = false := by simp [hqk]
        simp [List.find?, this, hqk, Option.or]

/-! ### Claim theorems -/

/-- Claim C1: for every request path of the form `/files/{name}` (a
non-empty, slash-free segment, as the route regex requires) whose resolved
target — the canonicalized `abspath(join(base, name))` — does not have the
canonicalized base directory as a prefix, both the file read handler and
the file write handler return the 403 "Access Denied" response, for every
encoding-candidate set.  The containment test is the prefix check on
canonicalized paths computed by `pyAbspath`, not a naive check on the raw
request path (the witness exhibits a `..` segment that a naive check on
the un-normalized string would let through). -/
theorem files_traversal_denied
    (gz : List Nat → List Nat) (cwd base name : List Char)
    (encs : List (List Char)) (hdrs : Dict) (req : List Char) (fs : Fs)
    (h1 : name.isEmpty = false) (h2 : name.contains '/' = false)
    (h3 : pyStartsWith (pyAbspath cwd (pyJoin base name)) (pyAbspath cwd base) = false) :
    handle_file_request gz cwd (chars "/files/" ++ name) base encs fs
      = format_response gz (chars "403 Forbidden") (.str (chars "Access Denied"))
          (chars "text/plain") (some encs)
    ∧ handle_file_upload gz cwd req (chars "/files/" ++ name) base hdrs fs
      = (format_response gz (chars "403 Forbidden") (.str (chars "Access Denied"))
          (chars "text/plain") none, fs) := by
  constructor
  · simp [handle_file_request, fileMatch_append name h1 h2, h3]
  · simp [handle_file_upload, fileMatch_append name h1 h2, h3]

/-- Witness for C1: the path `/files/..` against base directory
`/tmp/secret` resolves to `/tmp`, which fails the canonical prefix check
(a naive prefix check on the raw string `/tmp/secret/..` would pass), and
both handlers answer 403 "Access Denied" even with gzip requested. -/
theorem files_traversal_denied_witness :
    ((chars "..").isEmpty = false ∧ (chars "..").contains '/' = false ∧
      pyStartsWith (pyAbspath (chars "/") (pyJoin (chars "/tmp/secret") (chars "..")))
        (pyAbspath (chars "/") (chars "/tmp/secret")) = false ∧
      pyStartsWith (chars "/tmp/secret" ++ chars "/" ++ chars "..") (chars "/tmp/secret") = true) ∧
    (handle_file_request (fun _ => []) (chars "/") (chars "/files/" ++ chars "..")
        (chars "/tmp/secret") [chars "gzip"] []
      = format_response (fun _ => []) (chars "403 Forbidden") (.str (chars "Access Denied"))
          (chars "text/plain") (some [chars "gzip"])
    ∧ handle_file_upload (fun _ => []) (chars "/") (chars "POST /files/.. HTTP/1.1\r\n\r\n")
        (chars "/files/" ++ chars "..") (chars "/tmp/secret") [] []
      = (format_response (fun _ => []) (chars "403 Forbidden") (.str (chars "Access Denied"))
          (chars "text/plain") none, [])) :=
  ⟨⟨by decide, by decide, by decide, by decide⟩,
    files_traversal_denied (fun _ => []) (chars "/") (chars "/tmp/secret") (chars "..")
      [chars "gzip"] [] (chars "POST /files/.. HTTP/1.1\r\n\r\n") []
      (by decide) (by decide) (by decide)⟩

/-- Claim C3 (code bug): `parse_request` does report method and path as
absent — `(none, none, {})`, without raising — when the first line has
fewer than three space-separated tokens (first conjunct), but it is not
total: when the first line has more than three tokens the guard
`len(lines[0].split(" ")) < 3` passes and the three-way unpacking
`method, path, _ = lines[0].split(" ")` raises a `ValueError` (second
conjunct, the raise modelled as `Except.error`). -/
theorem parse_request_token_counts :
    parse_request (chars "GET /\r\n\r\n") = .ok (none, none, [])
    ∧ parse_request (chars "GET /a b HTTP/1.1\r\n\r\n") = .error () :=
  ⟨rfl, rfl⟩

/-- Claim C4: for every status, body, content type, and encoding-candidate
set, `format_response` produces exactly: the status line, a `Content-Type`
header, a `Content-Encoding: gzip` header exactly when `"gzip"` is a
member of the candidate set (any other candidate leaves the output
untouched), with the body compressed before length computation in the
gzip case, a `Content-Length` header equal to the byte count of the final
body, a blank-line terminator, and the final body bytes appended
verbatim, in that fixed order. -/
theorem format_response_layout (gz : List Nat → List Nat) (status : List Char)
    (body : PyBody) (ct : List Char) (encs : List (List Char)) :
    format_response gz status body ct (some encs) =
      (if encs.contains (chars "gzip") then
        utf8Bytes (chars "HTTP/1.1 " ++ status ++ chars "\r\n"
            ++ chars "Content-Type: " ++ ct ++ chars "\r\n"
            ++ chars "Content-Encoding: gzip" ++ chars "\r\n"
            ++ chars "Content-Length: " ++ natToChars (gz (bodyBytes body)).length
            ++ chars "\r\n" ++ chars "\r\n")
          ++ gz (bodyBytes body)
      else
        utf8Bytes (chars "HTTP/1.1 " ++ status ++ chars "\r\n"
            ++ chars "Content-Type: " ++ ct ++ chars "\r\n"
            ++ chars "Content-Length: " ++ natToChars (bodyBytes body).length
            ++ chars "\r\n" ++ chars "\r\n")
          ++ bodyBytes body) :=
  format_response_eq gz status body ct encs

/-- Claim C10: a `GET /` dispatch whose derived encoding candidates include
`"gzip"` is answered by compressing even the empty body: the response
carries `Content-Encoding: gzip` and a `Content-Length` equal to the byte
length of the gzip compression of the empty byte string — which, the
compressed empty string being non-empty (hypothesis `hne`, true of every
gzip implementation: header and trailer alone are 18 bytes), is not
`Content-Length: 0`. -/
theorem gzip_empty_body_compressed
    (gz : List Nat → List Nat) (cwd base req : List Char) (hdrs : Dict) (fs : Fs)
    (hgz : (derivedEncodings hdrs).contains (chars "gzip") = true)
    (hne : (gz []).length ≠ 0) :
    (dispatch gz cwd base (some (chars "GET")) (some (chars "/")) hdrs req fs).1
      = utf8Bytes (chars "HTTP/1.1 " ++ chars "200 OK" ++ chars "\r\n"
          ++ chars "Content-Type: " ++ chars "text/plain" ++ chars "\r\n"
          ++ chars "Content-Encoding: gzip" ++ chars "\r\n"
          ++ chars "Content-Length: " ++ natToChars (gz []).length
          ++ chars "\r\n" ++ chars "\r\n") ++ gz []
    ∧ natToChars (gz []).length ≠ chars "0" := by
  refine ⟨?_, natToChars_ne_zero hne⟩
  have h1 : (dispatch gz cwd base (some (chars "GET")) (some (chars "/")) hdrs req fs).1
      = format_response gz (chars "200 OK") (.str []) (chars "text/plain")
          (some (derivedEncodings hdrs)) := by
    simp [dispatch]
  rw [h1, format_response_eq]
  simp only [hgz, if_true]
  simp [bodyBytes, utf8Bytes]

/-- Witness for C10: with `Accept-Encoding: gzip` in the header map and a
compressor returning two bytes on empty input, `GET /` is answered with
`Content-Encoding: gzip` and `Content-Length: 2`. -/
theorem gzip_empty_body_compressed_witness :
    ((derivedEncodings [(chars "accept-encoding", chars "gzip")]).contains (chars "gzip") = true
      ∧ ((fun _ => [0, 1] : List Nat → List Nat) []).length ≠ 0) ∧
    ((dispatch (fun _ => [0, 1]) (chars "/") (chars "/tmp") (some (chars "GET"))
        (some (chars "/")) [(chars "accept-encoding", chars "gzip")] (chars "GET / HTTP/1.1\r\n\r\n") []).1
      = utf8Bytes (chars "HTTP/1.1 " ++ chars "200 OK" ++ chars "\r\n"
          ++ chars "Content-Type: " ++ chars "text/plain" ++ chars "\r\n"
          ++ chars "Content-Encoding: gzip" ++ chars "\r\n"
          ++ chars "Content-Length: " ++ natToChars ((fun _ => [0, 1] : List Nat → List Nat) []).length
          ++ chars "\r\n" ++ chars "\r\n") ++ (fun _ => [0, 1] : List Nat → List Nat) []
    ∧ natToChars ((fun _ => [0, 1] : List Nat → List Nat) []).length ≠ chars "0") :=
  ⟨⟨by decide, by decide⟩,
    gzip_empty_body_compressed (fun _ => [0, 1]) (chars "/") (chars "/tmp")
      (chars "GET / HTTP/1.1\r\n\r\n") [(chars "accept-encoding", chars "gzip")] []
      (by decide) (by decide)⟩

/-- `splitChar` always produces at least one token (so the derived
encoding-candidate set is never null/empty as a collection). -/
theorem splitChar_ne_nil (t : Char) : ∀ l : List Char, splitChar t l ≠ [] := by
  intro l
  induction l with
  | nil => simp [splitChar]
  | cons c rest ih =>
    by_cases h : c = t
    · simp [splitChar, h]
    · simp only [splitChar, h, if_false]
      cases hs : splitChar t rest <;> simp

/-- Claim C2: write-then-read round trip.  For a valid single-segment
filename (non-empty, slash-free, passing the containment check), a
`content-length` header whose digits parse to the byte length of the
payload, and a request whose text after the first blank-line separator is
the payload `b`, the upload handler answers 201 and stores exactly the
UTF-8 bytes of `b`, and a subsequent read of the same path against the
same base directory answers 200 with body exactly those bytes. -/
theorem files_write_read_roundtrip
    (gz : List Nat → List Nat) (cwd base name : List Char)
    (encs : List (List Char)) (hdrs : Dict) (req hsec b cl : List Char) (fs : Fs)
    (h1 : name.isEmpty = false) (h2 : name.contains '/' = false)
    (h3 : pyStartsWith (pyAbspath cwd (pyJoin base name)) (pyAbspath cwd base) = true)
    (h4 : pyDictGet hdrs (chars "content-length") = some cl)
    (h5 : pyIsDigit cl = true)
    (h6 : pyParseNat cl = (utf8Bytes b).length)
    (h7 : splitOnceCrlf2 req = some (hsec, b)) :
    handle_file_upload gz cwd req (chars "/files/" ++ name) base hdrs fs
      = (format_response gz (chars "201 Created") (.str []) (chars "text/plain") none,
         pyDictInsert fs (pyAbspath cwd (pyJoin base name)) (utf8Bytes b))
    ∧ handle_file_request gz cwd (chars "/files/" ++ name) base encs
        (pyDictInsert fs (pyAbspath cwd (pyJoin base name)) (utf8Bytes b))
      = format_response gz (chars "200 OK") (.bytes (utf8Bytes b))
          (chars "application/octet-stream") (some encs) := by
  have htake : b.take (pyParseNat cl) = b := by
    rw [h6]; exact List.take_of_length_le (length_le_utf8Bytes b)
  constructor
  · simp [handle_file_upload, fileMatch_append name h1 h2, h3, h4, h5, h7, htake]
  · simp [handle_file_request, fileMatch_append name h1 h2, h3, pyDictGet_insert]

/-- Witness for C2: uploading `hello` (5 bytes) to `/files/a.txt` under
base `/tmp` and reading it back yields 201 then 200 with body `hello`. -/
theorem files_write_read_roundtrip_witness :
    ((chars "a.txt").isEmpty = false ∧ (chars "a.txt").contains '/' = false ∧
      pyStartsWith (pyAbspath (chars "/") (pyJoin (chars "/tmp") (chars "a.txt")))
        (pyAbspath (chars "/") (chars "/tmp")) = true ∧
      pyDictGet [(chars "content-length", chars "5")] (chars "content-length")
        = some (chars "5") ∧
      pyIsDigit (chars "5") = true ∧
      pyParseNat (chars "5") = (utf8Bytes (chars "hello")).length ∧
      splitOnceCrlf2 (chars "POST /files/a.txt HTTP/1.1\r\ncontent-length: 5\r\n\r\nhello")
        = some (chars "POST /files/a.txt HTTP/1.1\r\ncontent-length: 5", chars "hello")) ∧
    (handle_file_upload (fun _ => []) (chars "/")
        (chars "POST /files/a.txt HTTP/1.1\r\ncontent-length: 5\r\n\r\nhello")
        (chars "/files/" ++ chars "a.txt") (chars "/tmp")
        [(chars "content-length", chars "5")] []
      = (format_response (fun _ => []) (chars "201 Created") (.str []) (chars "text/plain") none,
         pyDictInsert [] (pyAbspath (chars "/") (pyJoin (chars "/tmp") (chars "a.txt")))
           (utf8Bytes (chars "hello")))
    ∧ handle_file_request (fun _ => []) (chars "/") (chars "/files/" ++ chars "a.txt")
        (chars "/tmp") []
        (pyDictInsert [] (pyAbspath (chars "/") (pyJoin (chars "/tmp") (chars "a.txt")))
          (utf8Bytes (chars "hello")))
      = format_response (fun _ => []) (chars "200 OK") (.bytes (utf8Bytes (chars "hello")))
          (chars "application/octet-stream") (some [])) :=
  ⟨⟨by decide, by decide, by decide, by decide, by decide, by decide, by decide⟩,
    files_write_read_roundtrip (fun _ => []) (chars "/") (chars "/tmp") (chars "a.txt") []
      [(chars "content-length", chars "5")]
      (chars "POST /files/a.txt HTTP/1.1\r\ncontent-length: 5\r\n\r\nhello")
      (chars "POST /files/a.txt HTTP/1.1\r\ncontent-length: 5") (chars "hello") (chars "5") []
      (by decide) (by decide) (by decide) (by decide) (by decide) (by decide) (by decide)⟩

/-- Counterexample to C5 as stated: the persisted content is NOT "truncated
to exactly `Content-Length` bytes".  A declared length of 1 with body text
`é!` (whose UTF-8 form is `[195, 169, 33]`, 3 bytes) persists the 2-byte
file `[195, 169]` — the UTF-8 encoding of the first 1 *character* — not
the first 1 byte `[195]`, and not a 1-byte file at all. -/
theorem upload_truncation_not_bytes :
    (handle_file_upload (fun _ => []) (chars "/")
        (chars "POST /files/a HTTP/1.1\r\ncontent-length: 1\r\n\r\né!")
        (chars "/files/a") (chars "/b") [(chars "content-length", chars "1")] []).2
      = [(chars "/b/a", [195, 169])]
    ∧ ([195, 169] : List Nat) ≠ (utf8Bytes (chars "é!")).take 1
    ∧ ([195, 169] : List Nat).length ≠ pyParseNat (chars "1") :=
  ⟨by decide, by decide, by decide⟩

/-- Claim C5, amended: for a valid in-base single-segment POST with a
digit-string `content-length` and a blank-line separator present, the
persisted content is the UTF-8 encoding of the text following the first
blank-line separator truncated to `Content-Length` *characters* of the
decoded request text (which coincides with bytes only for ASCII bodies);
when fewer characters than declared follow the separator, all available
characters are written, silently yielding a shorter file than declared. -/
theorem upload_truncation_chars
    (gz : List Nat → List Nat) (cwd base name : List Char)
    (hdrs : Dict) (req hsec bodyTxt cl : List Char) (fs : Fs)
    (h1 : name.isEmpty = false) (h2 : name.contains '/' = false)
    (h3 : pyStartsWith (pyAbspath cwd (pyJoin base name)) (pyAbspath cwd base) = true)
    (h4 : pyDictGet hdrs (chars "content-length") = some cl)
    (h5 : pyIsDigit cl = true)
    (h7 : splitOnceCrlf2 req = some (hsec, bodyTxt)) :
    handle_file_upload gz cwd req (chars "/files/" ++ name) base hdrs fs
      = (format_response gz (chars "201 Created") (.str []) (chars "text/plain") none,
         pyDictInsert fs (pyAbspath cwd (pyJoin base name))
           (utf8Bytes (bodyTxt.take (pyParseNat cl))))
    ∧ (bodyTxt.length ≤ pyParseNat cl →
        utf8Bytes (bodyTxt.take (pyParseNat cl)) = utf8Bytes bodyTxt) := by
  constructor
  · simp [handle_file_upload, fileMatch_append name h1 h2, h3, h4, h5, h7]
  · intro hshort
    rw [List.take_of_length_le hshort]

/-- Witness for C5 (amended): declared length 5, but only `hi` (2
characters) follows the separator — the whole available text is written,
yielding a 2-byte file. -/
theorem upload_truncation_chars_witness :
    ((chars "a").isEmpty = false ∧ (chars "a").contains '/' = false ∧
      pyStartsWith (pyAbspath (chars "/") (pyJoin (chars "/b") (chars "a")))
        (pyAbspath (chars "/") (chars "/b")) = true ∧
      pyDictGet [(chars "content-length", chars "5")] (chars "content-length")
        = some (chars "5") ∧
      pyIsDigit (chars "5") = true ∧
      splitOnceCrlf2 (chars "POST /files/a HTTP/1.1\r\ncontent-length: 5\r\n\r\nhi")
        = some (chars "POST /files/a HTTP/1.1\r\ncontent-length: 5", chars "hi")) ∧
    (handle_file_upload (fun _ => []) (chars "/")
        (chars "POST /files/a HTTP/1.1\r\ncontent-length: 5\r\n\r\nhi")
        (chars "/files/" ++ chars "a") (chars "/b") [(chars "content-length", chars "5")] []
      = (format_response (fun _ => []) (chars "201 Created") (.str []) (chars "text/plain") none,
         pyDictInsert [] (pyAbspath (chars "/") (pyJoin (chars "/b") (chars "a")))
           (utf8Bytes ((chars "hi").take (pyParseNat (chars "5")))))
    ∧ utf8Bytes ((chars "hi").take (pyParseNat (chars "5"))) = utf8Bytes (chars "hi")) :=
  ⟨⟨by decide, by decide, by decide, by decide, by decide, by decide⟩,
    (upload_truncation_chars (fun _ => []) (chars "/") (chars "/b") (chars "a")
      [(chars "content-length", chars "5")]
      (chars "POST /files/a HTTP/1.1\r\ncontent-length: 5\r\n\r\nhi")
      (chars "POST /files/a HTTP/1.1\r\ncontent-length: 5") (chars "hi") (chars "5") []
      (by decide) (by decide) (by decide) (by decide) (by decide) (by decide)).1,
    (upload_truncation_chars (fun _ => []) (chars "/") (chars "/b") (chars "a")
      [(chars "content-length", chars "5")]
      (chars "POST /files/a HTTP/1.1\r\ncontent-length: 5\r\n\r\nhi")
      (chars "POST /files/a HTTP/1.1\r\ncontent-length: 5") (chars "hi") (chars "5") []
      (by decide) (by decide) (by decide) (by decide) (by decide) (by decide)).2 (by decide)⟩

/-- Counterexample to C6 as stated: a request whose first line has fewer
than three tokens — so the parse yields absent method and path — is NOT
answered with a fixed 500 response: the dispatch chain is reached, falls
through every route, and emits the 405 "Only GET and POST supported"
response, which differs from the fixed 500 "Server Error" response. -/
theorem malformed_request_not_500 :
    (handle_request (fun _ => []) (chars "/") (chars "/b") [] (chars "GET /\r\n\r\n")
        (fun _ => false)).1.sent
      = [format_response (fun _ => []) (chars "405 Method Not Allowed")
          (.str (chars "Only GET and POST supported")) (chars "text/plain") none]
    ∧ format_response (fun _ => []) (chars "405 Method Not Allowed")
        (.str (chars "Only GET and POST supported")) (chars "text/plain") none
      ≠ format_response (fun _ => []) (chars "500 Internal Server Error")
          (.str (chars "Server Error")) (chars "text/plain") none :=
  ⟨by decide, by decide⟩

/-- Claim C6, amended: for every non-empty request whose parse yields an
absent method and path (a malformed request line), the route dispatcher IS
reached: the `if`/`elif` chain matches no route and falls through to its
final `else`, so the connection layer sends the single fixed 405 response
`"Only GET and POST supported"` (formatted on the plain, encoding-free
path) and leaves the filesystem untouched; a fixed 500 response arises
only from the catch-all handler when parsing (or sending) raises. -/
theorem malformed_request_yields_405
    (gz : List Nat → List Nat) (cwd base : List Char) (fs : Fs)
    (raw : List Char) (hdrs : Dict) (sendFail : Nat → Bool)
    (h0 : raw ≠ [])
    (h1 : parse_request raw = .ok (none, none, hdrs))
    (h2 : sendFail 0 = false) :
    (handle_request gz cwd base fs raw sendFail).1.sent
      = [format_response gz (chars "405 Method Not Allowed")
          (.str (chars "Only GET and POST supported")) (chars "text/plain") none]
    ∧ (handle_request gz cwd base fs raw sendFail).2 = fs := by
  have hd : dispatch gz cwd base none none hdrs raw fs
      = (format_response gz (chars "405 Method Not Allowed")
          (.str (chars "Only GET and POST supported")) (chars "text/plain") none, fs) := by
    simp [dispatch, echoMatch, pathFiles]
  constructor <;> simp [handle_request, h0, h1, h2, hd]

/-- Witness for C6 (amended): the two-token request line `GET /`. -/
theorem malformed_request_yields_405_witness :
    ((chars "GET /\r\n\r\n") ≠ [] ∧
      parse_request (chars "GET /\r\n\r\n") = .ok (none, none, []) ∧
      (fun _ : Nat => false) 0 = false) ∧
    ((handle_request (fun _ => [7]) (chars "/") (chars "/b") [] (chars "GET /\r\n\r\n")
        (fun _ => false)).1.sent
      = [format_response (fun _ => [7]) (chars "405 Method Not Allowed")
          (.str (chars "Only GET and POST supported")) (chars "text/plain") none]
    ∧ (handle_request (fun _ => [7]) (chars "/") (chars "/b") [] (chars "GET /\r\n\r\n")
        (fun _ => false)).2 = []) :=
  ⟨⟨by decide, rfl, rfl⟩,
    malformed_request_yields_405 (fun _ => [7]) (chars "/") (chars "/b") []
      (chars "GET /\r\n\r\n") [] (fun _ => false) (by decide) rfl rfl⟩

/-- Counterexample to C7 as stated: when the `accept-encoding` header is
absent the derived candidate collection is NOT empty — it is the singleton
containing the empty token (Python `set("".split(","))  ==  {""}`); and
tokens are not whitespace-stripped: every space is deleted, so the value
`g zip` contributes the token `gzip` (which gzip negotiation then honors),
not the stripped token `g zip`. -/
theorem encoding_candidates_not_as_specified :
    derivedEncodings [] = [[]]
    ∧ ([[]] : List (List Char)) ≠ []
    ∧ derivedEncodings [(chars "accept-encoding", chars "g zip")] = [chars "gzip"]
    ∧ chars "gzip" ≠ chars "g zip" :=
  ⟨by decide, by decide, by decide, by decide⟩

/-- Claim C7, amended: the encoding candidates handed to dispatch and
formatting are derived from the `accept-encoding` header value by
lower-casing, deleting every space character, and splitting on commas;
the result is never null — always at least one token — and when the
header is absent it is the singleton collection containing the empty
token (not the empty collection). -/
theorem encoding_candidates_derivation (hdrs : Dict) :
    derivedEncodings hdrs ≠ []
    ∧ (pyDictGet hdrs (chars "accept-encoding") = none → derivedEncodings hdrs = [[]])
    ∧ (∀ v, pyDictGet hdrs (chars "accept-encoding") = some v →
        derivedEncodings hdrs
          = splitChar ',' ((pyLower v).filter (fun c => !(c == ' ')))) := by
  refine ⟨?_, ?_, ?_⟩
  · simpa [derivedEncodings] using
      splitChar_ne_nil ','
        ((pyLower ((pyDictGet hdrs (chars "accept-encoding")).getD [])).filter
          (fun c => !(c == ' ')))
  · intro h; simp [derivedEncodings, h, pyLower, splitChar]
  · intro v h; simp [derivedEncodings, h]

/-- Witness for C7 (amended): with no headers at all, the derived candidate
collection is the (non-null, non-empty) singleton of the empty token. -/
theorem encoding_candidates_derivation_witness :
    derivedEncodings [] ≠ [] ∧ (pyDictGet ([] : Dict) (chars "accept-encoding") = none
      ∧ derivedEncodings [] = [[]]) :=
  ⟨(encoding_candidates_derivation []).1, rfl, (encoding_candidates_derivation []).2.1 rfl⟩

/-- Counterexample to C8 as stated: header collection does NOT stop at the
first blank line.  In a request whose only `": "` line lies after the
blank-line separator (in the body), that line is still collected as a
header, where the claim demands an empty header map. -/
theorem headers_collected_after_blank_line :
    parse_request (chars "GET / HTTP/1.1\r\n\r\nfoo: bar")
      = .ok (some (chars "GET"), some (chars "/"), [(chars "foo", chars "bar")])
    ∧ [(chars "foo", chars "bar")] ≠ ([] : Dict) :=
  ⟨rfl, by decide⟩

/-- Claim C8, amended: when the first line splits into exactly three
space-separated tokens, `parse_request` treats as headers exactly those
lines after the first line — including lines after the first blank line,
i.e. body lines — that contain the substring `": "`; each such line is
split at its first colon, the name lower-cased and trimmed and the value
trimmed; lines without `": "` are silently skipped without failing; and
on duplicate names the last occurrence wins (the lookup of the built dict
is the last matching line's value). -/
theorem headers_lenient_last_wins
    (raw l0 : List Char) (rest : List (List Char)) (m p v : List Char)
    (hsplit : splitCrlf raw = l0 :: rest)
    (htoks : splitChar ' ' l0 = [m, p, v]) :
    parse_request raw = .ok (some m, some p, headersOf rest)
    ∧ ∀ k, pyDictGet (headersOf rest) k
        = ((rest.filterMap headerOfLine).reverse.find? (fun q => q.1 == k)).map Prod.snd := by
  constructor
  · simp [parse_request, hsplit, htoks]
  · intro k
    rw [headersOf_eq, pyDictGet_foldl_ins]
    simp [pyDictGet]

/-- Witness for C8 (amended): a request carrying `x: 1` then `x: 2` — the
parse collects both and the lookup of `x` is the last value `2`. -/
theorem headers_lenient_last_wins_witness :
    (splitCrlf (chars "GET / HTTP/1.1\r\nx: 1\r\nx: 2\r\n\r\n")
      = [chars "GET / HTTP/1.1", chars "x: 1", chars "x: 2", [], []]
    ∧ splitChar ' ' (chars "GET / HTTP/1.1") = [chars "GET", chars "/", chars "HTTP/1.1"]) ∧
    (parse_request (chars "GET / HTTP/1.1\r\nx: 1\r\nx: 2\r\n\r\n")
      = .ok (some (chars "GET"), some (chars "/"),
          headersOf [chars "x: 1", chars "x: 2", [], []])
    ∧ pyDictGet (headersOf [chars "x: 1", chars "x: 2", [], []]) (chars "x")
      = ((([chars "x: 1", chars "x: 2", ([] : List Char), ([] : List Char)].filterMap
            headerOfLine).reverse.find? (fun q => q.1 == chars "x")).map Prod.snd)
    ∧ pyDictGet (headersOf [chars "x: 1", chars "x: 2", [], []]) (chars "x")
      = some (chars "2")) :=
  ⟨⟨rfl, rfl⟩,
    (headers_lenient_last_wins (chars "GET / HTTP/1.1\r\nx: 1\r\nx: 2\r\n\r\n")
      (chars "GET / HTTP/1.1") [chars "x: 1", chars "x: 2", [], []]
      (chars "GET") (chars "/") (chars "HTTP/1.1") rfl rfl).1,
    (headers_lenient_last_wins (chars "GET / HTTP/1.1\r\nx: 1\r\nx: 2\r\n\r\n")
      (chars "GET / HTTP/1.1") [chars "x: 1", chars "x: 2", [], []]
      (chars "GET") (chars "/") (chars "HTTP/1.1") rfl rfl).2 (chars "x"),
    by decide⟩

/-- Claim C9: `handle_request` reaches the Closed state on every exit path
— after a successful send, after an empty read (in which case no response
is written: second conjunct), when parsing raises, and when either
`sendall` raises — for every request text, every dispatch outcome, and
every injected send-failure pattern. -/
theorem connection_always_closed
    (gz : List Nat → List Nat) (cwd base : List Char) (fs : Fs)
    (raw : List Char) (sendFail : Nat → Bool) :
    (handle_request gz cwd base fs raw sendFail).1.closed = true
    ∧ (handle_request gz cwd base fs [] sendFail).1.sent = [] := by
  constructor
  · unfold handle_request
    by_cases h : raw = []
    · simp [h]
    · simp only [h, if_false]
      cases hp : parse_request raw with
      | error e => by_cases h1 : sendFail 1 <;> simp [h1]
      | ok t =>
        obtain ⟨m, p, hs⟩ := t
        by_cases h0 : sendFail 0
        · by_cases h1 : sendFail 1 <;> simp [h0, h1]
        · simp [h0]
  · simp [handle_request]

end Srv
